import Mathlib

/-
Verification of the OutfitDetailScreen component
(src/screens/OutfitDetailScreen.tsx of the ai-closet repository).

The screen is embedded shallowly: its local React state (the editable
snapshot `localOutfit` and the `isDirty` flag) becomes a `ScreenState`
record, each event handler becomes a function from `ScreenState` to a new
`ScreenState` together with the list of external effects it issues
(store mutations, navigation, alerts), and the modal alerts become data
(`Prompt` values) whose button resolutions are separate functions, since
the alert API is callback based.
-/

namespace AiCloset

/-- A reference held in an outfit pointing into the clothing store
(the elements of `clothingItems` in types/Outfit). -/
structure ClothingRef where
  itemId : String
deriving DecidableEq

/-- The Outfit record as used by the screen: identifier, image reference,
ordered tag list, clothing-item references, and season/occasion selections. -/
structure Outfit where
  outfitId : String
  imageUri : String
  tags : List String
  clothingItems : List ClothingRef
  season : List String
  occasion : List String
deriving DecidableEq

/-- The component-local React state of OutfitDetailScreen:
`localOutfit` from `useState<Outfit | undefined>(contextOutfit)` and
`isDirty` from `useState(false)`. -/
structure ScreenState where
  localOutfit : Option Outfit
  isDirty : Bool
deriving DecidableEq

/-- External effects the screen can issue: the two store mutations
(`updateOutfit`, `deleteOutfit`), back navigation, and the success alert
shown after a save. Store reads (`getOutfit`) are modelled as inputs, not
effects, since they mutate nothing. -/
inductive Effect
  | storeUpdate (o : Outfit)
  | storeDelete (oid : String)
  | goBack
  | alertSuccess
deriving DecidableEq

/-- Button styles of the alert API (`style:` field of Alert buttons). -/
inductive ButtonStyle
  | plain
  | cancel
  | destructive
deriving DecidableEq

/-- One button of a modal alert: its label and style. The button actions
are modelled by dedicated resolution functions below. -/
structure PromptButton where
  text : String
  style : ButtonStyle
deriving DecidableEq

/-- A modal alert as data: title, message and button list. -/
structure Prompt where
  title : String
  message : String
  buttons : List PromptButton
deriving DecidableEq

/-- `true` exactly on `storeUpdate` effects. -/
def isUpdate : Effect → Bool
  | Effect.storeUpdate _ => true
  | _ => false

/-- `true` exactly on `storeDelete` effects. -/
def isDelete : Effect → Bool
  | Effect.storeDelete _ => true
  | _ => false

/-- `true` exactly on store mutation effects (update or delete). -/
def isStoreCall : Effect → Bool
  | Effect.storeUpdate _ => true
  | Effect.storeDelete _ => true
  | _ => false

/-- The field/value pairs `handleFieldChange` can receive: one constructor
per key of Outfit, carrying the new value for that key. -/
inductive FieldUpdate
  | outfitId (v : String)
  | imageUri (v : String)
  | tags (v : List String)
  | clothingItems (v : List ClothingRef)
  | season (v : List String)
  | occasion (v : List String)
deriving DecidableEq

/-- The spread-update `\x7b ...prevOutfit, [field]: value \x7d`: a copy of
the outfit with the named field replaced. -/
def setField (o : Outfit) : FieldUpdate → Outfit
  | FieldUpdate.outfitId v => { o with outfitId := v }
  | FieldUpdate.imageUri v => { o with imageUri := v }
  | FieldUpdate.tags v => { o with tags := v }
  | FieldUpdate.clothingItems v => { o with clothingItems := v }
  | FieldUpdate.season v => { o with season := v }
  | FieldUpdate.occasion v => { o with occasion := v }

/-- `handleFieldChange`: replaces the named field when a snapshot exists
(`if (!prevOutfit) return prevOutfit`), and sets `isDirty` to true
unconditionally. Issues no effects. -/
def handleFieldChange (f : FieldUpdate) (s : ScreenState) : ScreenState :=
  { localOutfit :=
      match s.localOutfit with
      | none => none
      | some o => some (setField o f),
    isDirty := true }

/-- `handleSave`: when a snapshot exists, calls `updateOutfit(localOutfit)`,
sets `isDirty` to false and shows the success alert; otherwise does
nothing. -/
def handleSave (s : ScreenState) : ScreenState × List Effect :=
  match s.localOutfit with
  | some o => ({ s with isDirty := false }, [Effect.storeUpdate o, Effect.alertSuccess])
  | none => (s, [])

/-- The `useEffect` keyed on `contextOutfit`: when the store value for the
id is present it replaces the local snapshot (`if (contextOutfit)
setLocalOutfit(contextOutfit)`); when absent it does nothing. `isDirty` is
never touched by this effect. -/
def resyncEffect (contextOutfit : Option Outfit) (s : ScreenState) : ScreenState :=
  match contextOutfit with
  | some o => { s with localOutfit := some o }
  | none => s

/-- What the screen renders for a given state: the not-found placeholder
when no snapshot exists, else the full form (the Boolean records whether
the conditional Save button is shown, i.e. `isDirty`). -/
inductive View
  | loading
  | notFound
  | form (o : Outfit) (showSaveButton : Bool)
deriving DecidableEq

/-- The render function of the component body after the context checks:
`if (!localOutfit) return <Text>Outfit not found.</Text>` else the form. -/
def render (s : ScreenState) : View :=
  match s.localOutfit with
  | none => View.notFound
  | some o => View.form o s.isDirty

/-- The initial state of the component: `localOutfit` seeded from
`getOutfit(id)` and `isDirty` false. -/
def initialState (contextOutfit : Option Outfit) : ScreenState :=
  { localOutfit := contextOutfit, isDirty := false }

/-- Mounting the screen with the store value for the id: the initial state,
the resync effect run once with that same value, then the render. The
mount/render path of the component contains no call to `updateOutfit` or
`deleteOutfit`, hence the empty effect list. -/
def mount (storeGet : Option Outfit) : ScreenState × View × List Effect :=
  let s1 := resyncEffect storeGet (initialState storeGet)
  (s1, render s1, [])

/-- The buttons of the unsaved-changes alert shown by the Header `onBack`
handler while dirty: exactly a destructive Discard and a plain Save. -/
def backPromptButtons : List PromptButton :=
  [{ text := "Discard", style := ButtonStyle.destructive },
   { text := "Save", style := ButtonStyle.plain }]

/-- The immediate response of `onBack`: either navigate back now or show
a modal prompt whose buttons act later. -/
inductive BackResponse
  | navigate (effects : List Effect)
  | prompt (title message : String) (buttons : List PromptButton)
deriving DecidableEq

/-- The effects issued synchronously by a back response (a prompt issues
none until a button is chosen). -/
def backResponseEffects : BackResponse → List Effect
  | BackResponse.navigate effects => effects
  | BackResponse.prompt _ _ _ => []

/-- The `onBack` handler passed to the Header: while dirty, show the
unsaved-changes alert; otherwise `navigation.goBack()` immediately. -/
def onBack (s : ScreenState) : BackResponse :=
  if s.isDirty then
    BackResponse.prompt "Unsaved Changes" "Do you want to save your changes?" backPromptButtons
  else
    BackResponse.navigate [Effect.goBack]

/-- The two choices the unsaved-changes alert offers. -/
inductive BackChoice
  | discard
  | save
deriving DecidableEq

/-- Resolution of the unsaved-changes alert: Discard calls
`navigation.goBack()` only; Save runs `handleSave()` then
`navigation.goBack()`. -/
def backPromptResolve (c : BackChoice) (s : ScreenState) : ScreenState × List Effect :=
  match c with
  | BackChoice.discard => (s, [Effect.goBack])
  | BackChoice.save =>
      let r := handleSave s
      (r.1, r.2 ++ [Effect.goBack])

/-- The delete-confirmation alert of `handleDelete`: a cancel button and a
destructive Delete button. -/
def deletePrompt : Prompt :=
  { title := "Delete Outfit",
    message := "Are you sure you want to delete this outfit?",
    buttons := [{ text := "Cancel", style := ButtonStyle.cancel },
                { text := "Delete", style := ButtonStyle.destructive }] }

/-- The two choices of the delete-confirmation alert. -/
inductive DeleteChoice
  | cancel
  | confirm
deriving DecidableEq

/-- Resolution of the delete-confirmation alert: Cancel has no `onPress`
(no state change, no effects); Delete calls `deleteOutfit(id)` then
`navigation.goBack()`. -/
def deleteResolve (c : DeleteChoice) (oid : String) (s : ScreenState) :
    ScreenState × List Effect :=
  match c with
  | DeleteChoice.cancel => (s, [])
  | DeleteChoice.confirm => (s, [Effect.storeDelete oid, Effect.goBack])

/-- The `onAddTag` callback body: `[...localOutfit.tags, tag]`. -/
def addTag (tags : List String) (tag : String) : List String :=
  tags ++ [tag]

/-- The `onRemoveTag` callback body: `localOutfit.tags.filter((t) => t !== tag)`. -/
def removeTag (tags : List String) (tag : String) : List String :=
  tags.filter (fun t => t != tag)

/-- The Outfit field a `FieldUpdate` targets. -/
inductive Field
  | outfitId
  | imageUri
  | tags
  | clothingItems
  | season
  | occasion
deriving DecidableEq

/-- The field targeted by a given update. -/
def FieldUpdate.target : FieldUpdate → Field
  | FieldUpdate.outfitId _ => Field.outfitId
  | FieldUpdate.imageUri _ => Field.imageUri
  | FieldUpdate.tags _ => Field.tags
  | FieldUpdate.clothingItems _ => Field.clothingItems
  | FieldUpdate.season _ => Field.season
  | FieldUpdate.occasion _ => Field.occasion

/-- Agreement of two outfits on every field other than the given one. -/
def eqExcept : Field → Outfit → Outfit → Prop
  | Field.outfitId, a, b =>
      a.imageUri = b.imageUri ∧ a.tags = b.tags ∧ a.clothingItems = b.clothingItems ∧
      a.season = b.season ∧ a.occasion = b.occasion
  | Field.imageUri, a, b =>
      a.outfitId = b.outfitId ∧ a.tags = b.tags ∧ a.clothingItems = b.clothingItems ∧
      a.season = b.season ∧ a.occasion = b.occasion
  | Field.tags, a, b =>
      a.outfitId = b.outfitId ∧ a.imageUri = b.imageUri ∧ a.clothingItems = b.clothingItems ∧
      a.season = b.season ∧ a.occasion = b.occasion
  | Field.clothingItems, a, b =>
      a.outfitId = b.outfitId ∧ a.imageUri = b.imageUri ∧ a.tags = b.tags ∧
      a.season = b.season ∧ a.occasion = b.occasion
  | Field.season, a, b =>
      a.outfitId = b.outfitId ∧ a.imageUri = b.imageUri ∧ a.tags = b.tags ∧
      a.clothingItems = b.clothingItems ∧ a.occasion = b.occasion
  | Field.occasion, a, b =>
      a.outfitId = b.outfitId ∧ a.imageUri = b.imageUri ∧ a.tags = b.tags ∧
      a.clothingItems = b.clothingItems ∧ a.season = b.season

/-- The targeted field of the outfit holds the value carried by the update. -/
def installs : FieldUpdate → Outfit → Prop
  | FieldUpdate.outfitId v, o => o.outfitId = v
  | FieldUpdate.imageUri v, o => o.imageUri = v
  | FieldUpdate.tags v, o => o.tags = v
  | FieldUpdate.clothingItems v, o => o.clothingItems = v
  | FieldUpdate.season v, o => o.season = v
  | FieldUpdate.occasion v, o => o.occasion = v

/-- A concrete outfit used by the closed witness and counterexample
theorems. -/
def sampleOutfit : Outfit :=
  { outfitId := "o1",
    imageUri := "file-o1.png",
    tags := ["casual", "summer", "casual"],
    clothingItems := [{ itemId := "c1" }],
    season := ["Summer"],
    occasion := ["Daily"] }

/-- C3: when the outfit store has no record for the id (including before the
first successful fetch), the screen renders the not-found placeholder rather
than the full form, rendering is a total function (no thrown error), and the
mount/render path issues no store mutation call (no update, no delete). -/
theorem mount_absent_renders_notFound :
    mount none = ({ localOutfit := none, isDirty := false }, View.notFound, []) ∧
    (∀ d : Bool, render { localOutfit := none, isDirty := d } = View.notFound) ∧
    ((mount none).2.2).countP isStoreCall = 0 :=
  ⟨rfl, fun _ => rfl, rfl⟩

/-- C5: a back-navigation request while the dirty flag is false navigates
back immediately with the single goBack effect, presents no prompt, and
makes no store call. -/
theorem onBack_clean_navigates (s : ScreenState) (h : s.isDirty = false) :
    onBack s = BackResponse.navigate [Effect.goBack] ∧
    (∀ t m bs, onBack s ≠ BackResponse.prompt t m bs) ∧
    (backResponseEffects (onBack s)).countP isStoreCall = 0 := by
  have ho : onBack s = BackResponse.navigate [Effect.goBack] := by
    simp [onBack, h]
  refine ⟨ho, ?_, ?_⟩
  · intro t m bs
    rw [ho]
    intro hc
    exact BackResponse.noConfusion hc
  · rw [ho]
    decide

/-- Witness for C5 at a concrete clean state. -/
theorem onBack_clean_navigates_witness :
    onBack { localOutfit := some sampleOutfit, isDirty := false } =
      BackResponse.navigate [Effect.goBack] :=
  (onBack_clean_navigates { localOutfit := some sampleOutfit, isDirty := false } rfl).1

/-- C9: invoking the save handler while the local snapshot is undefined
performs nothing: no state change (in particular the dirty flag is
unchanged), no store update, and no success alert. -/
theorem handleSave_skipped_when_no_snapshot (s : ScreenState) (h : s.localOutfit = none) :
    handleSave s = (s, []) ∧
    (handleSave s).1.isDirty = s.isDirty ∧
    Effect.alertSuccess ∉ (handleSave s).2 ∧
    ((handleSave s).2).countP isUpdate = 0 := by
  have he : handleSave s = (s, []) := by
    unfold handleSave
    rw [h]
  refine ⟨he, ?_, ?_, ?_⟩
  · rw [he]
  · rw [he]
    simp
  · rw [he]
    rfl

/-- Witness for C9 at a concrete snapshot-free state. -/
theorem handleSave_skipped_witness :
    handleSave { localOutfit := none, isDirty := true } =
      ({ localOutfit := none, isDirty := true }, []) :=
  (handleSave_skipped_when_no_snapshot { localOutfit := none, isDirty := true } rfl).1

/-- C10: invoking the field-change handler while the local snapshot is
undefined leaves the snapshot undefined but still sets the dirty flag to
true, so the dirty flag can be true while no snapshot exists. -/
theorem handleFieldChange_no_snapshot (s : ScreenState) (f : FieldUpdate)
    (h : s.localOutfit = none) :
    handleFieldChange f s = { localOutfit := none, isDirty := true } := by
  unfold handleFieldChange
  rw [h]

/-- Witness for C10 at a concrete snapshot-free state. -/
theorem handleFieldChange_no_snapshot_witness :
    handleFieldChange (FieldUpdate.tags ["red"]) { localOutfit := none, isDirty := false } =
      { localOutfit := none, isDirty := true } :=
  handleFieldChange_no_snapshot { localOutfit := none, isDirty := false }
    (FieldUpdate.tags ["red"]) rfl

/-- C2 counterexample: the resynchronization effect does not replace the
snapshot for every new store value. With an absent new store value the
snapshot keeps its old value instead of becoming absent, because the
effect body is guarded by a presence check. -/
theorem resyncEffect_absent_counterexample :
    (resyncEffect none { localOutfit := some sampleOutfit, isDirty := false }).localOutfit =
      some sampleOutfit ∧
    (resyncEffect none { localOutfit := some sampleOutfit, isDirty := false }).localOutfit ≠
      (none : Option Outfit) :=
  ⟨rfl, by simp [resyncEffect]⟩

/-- C2 amended: the resynchronization effect replaces the snapshot with the
new store value whenever that value is present; an absent new value leaves
the state unchanged; the dirty flag is untouched in every case. -/
theorem resyncEffect_amended (o : Outfit) (s : ScreenState) :
    resyncEffect (some o) s = { localOutfit := some o, isDirty := s.isDirty } ∧
    resyncEffect none s = s ∧
    ∀ v : Option Outfit, (resyncEffect v s).isDirty = s.isDirty := by
  refine ⟨rfl, rfl, ?_⟩
  intro v
  cases v <;> rfl

/-- C1 counterexample: on a back request while dirty, the prompt offers
exactly the two choices Discard and Save; there is no cancel choice and
the choice count is not three. -/
theorem backPrompt_two_choices_counterexample :
    onBack { localOutfit := some sampleOutfit, isDirty := true } =
      BackResponse.prompt "Unsaved Changes" "Do you want to save your changes?"
        backPromptButtons ∧
    backPromptButtons.map PromptButton.text = ["Discard", "Save"] ∧
    "Cancel" ∉ backPromptButtons.map PromptButton.text ∧
    (backPromptButtons.map PromptButton.text).length ≠ 3 :=
  ⟨rfl, rfl, by decide, by decide⟩

/-- C1 amended: on a back request while dirty, the screen presents a
two-choice prompt: discard navigates back without saving and save runs
the full save effect (update, clear dirty, success alert) and then
navigates back. No explicit cancel choice is offered. -/
theorem onBack_dirty_prompt (s : ScreenState) (o : Outfit)
    (hd : s.isDirty = true) (ho : s.localOutfit = some o) :
    onBack s = BackResponse.prompt "Unsaved Changes" "Do you want to save your changes?"
      backPromptButtons ∧
    backPromptButtons = [{ text := "Discard", style := ButtonStyle.destructive },
                         { text := "Save", style := ButtonStyle.plain }] ∧
    backPromptResolve BackChoice.discard s = (s, [Effect.goBack]) ∧
    backPromptResolve BackChoice.save s =
      ({ localOutfit := some o, isDirty := false },
       [Effect.storeUpdate o, Effect.alertSuccess, Effect.goBack]) := by
  obtain ⟨lo, d⟩ := s
  obtain rfl : lo = some o := ho
  obtain rfl : d = true := hd
  exact ⟨rfl, rfl, rfl, rfl⟩

/-- Witness for the amended C1 at a concrete dirty state. -/
theorem onBack_dirty_prompt_witness :
    backPromptResolve BackChoice.save { localOutfit := some sampleOutfit, isDirty := true } =
      ({ localOutfit := some sampleOutfit, isDirty := false },
       [Effect.storeUpdate sampleOutfit, Effect.alertSuccess, Effect.goBack]) :=
  (onBack_dirty_prompt { localOutfit := some sampleOutfit, isDirty := true } sampleOutfit
    rfl rfl).2.2.2

/-- C4: resolving the dirty back prompt with discard issues only goBack and
never a store update; resolving it with save issues exactly one store
update carrying the local snapshot, with goBack last, and the resulting
dirty flag is false. -/
theorem backPromptResolve_discard_save (s : ScreenState) (o : Outfit)
    (hd : s.isDirty = true) (ho : s.localOutfit = some o) :
    (backPromptResolve BackChoice.discard s).2 = [Effect.goBack] ∧
    ((backPromptResolve BackChoice.discard s).2).countP isUpdate = 0 ∧
    backPromptResolve BackChoice.save s =
      ({ localOutfit := some o, isDirty := false },
       [Effect.storeUpdate o, Effect.alertSuccess, Effect.goBack]) ∧
    ((backPromptResolve BackChoice.save s).2).countP isUpdate = 1 ∧
    ((backPromptResolve BackChoice.save s).2).getLast? = some Effect.goBack ∧
    (backPromptResolve BackChoice.save s).1.isDirty = false := by
  obtain ⟨lo, d⟩ := s
  obtain rfl : lo = some o := ho
  obtain rfl : d = true := hd
  exact ⟨rfl, rfl, rfl, rfl, rfl, rfl⟩

/-- Witness for C4 at a concrete dirty state. -/
theorem backPromptResolve_discard_save_witness :
    ((backPromptResolve BackChoice.save
        { localOutfit := some sampleOutfit, isDirty := true }).2).countP isUpdate = 1 :=
  (backPromptResolve_discard_save { localOutfit := some sampleOutfit, isDirty := true }
    sampleOutfit rfl rfl).2.2.2.1

/-- C6: for every defined previous snapshot, field and value, the
field-change handler installs the value in the named field, leaves every
other field unchanged, and sets the dirty flag to true unconditionally
(no hypothesis relates the new value to the old one). -/
theorem handleFieldChange_spec (s : ScreenState) (o : Outfit) (f : FieldUpdate)
    (h : s.localOutfit = some o) :
    (handleFieldChange f s).isDirty = true ∧
    (handleFieldChange f s).localOutfit = some (setField o f) ∧
    eqExcept (FieldUpdate.target f) o (setField o f) ∧
    installs f (setField o f) := by
  obtain ⟨lo, d⟩ := s
  obtain rfl : lo = some o := h
  refine ⟨rfl, rfl, ?_, ?_⟩
  · cases f <;> exact ⟨rfl, rfl, rfl, rfl, rfl⟩
  · cases f <;> rfl

/-- Witness for C6: a tags update on a concrete state. -/
theorem handleFieldChange_spec_witness :
    (handleFieldChange (FieldUpdate.tags ["red"])
        { localOutfit := some sampleOutfit, isDirty := false }).isDirty = true ∧
    (handleFieldChange (FieldUpdate.tags ["red"])
        { localOutfit := some sampleOutfit, isDirty := false }).localOutfit =
      some (setField sampleOutfit (FieldUpdate.tags ["red"])) ∧
    eqExcept (FieldUpdate.target (FieldUpdate.tags ["red"])) sampleOutfit
      (setField sampleOutfit (FieldUpdate.tags ["red"])) ∧
    installs (FieldUpdate.tags ["red"]) (setField sampleOutfit (FieldUpdate.tags ["red"])) :=
  handleFieldChange_spec { localOutfit := some sampleOutfit, isDirty := false }
    sampleOutfit (FieldUpdate.tags ["red"]) rfl

/-- C7: adding a tag appends it at the end (length grows by one, the old
sequence is preserved as a prefix, the new tag is last, with no duplicate
check), and removing a tag deletes all its occurrences while keeping the
remaining tags in order (the result is a sublist, the removed tag has
count zero, every other tag keeps its count). -/
theorem tag_mutation_spec (tags : List String) (tag t : String) :
    addTag tags tag = tags ++ [tag] ∧
    (addTag tags tag).length = tags.length + 1 ∧
    (addTag tags tag).take tags.length = tags ∧
    (addTag tags tag).getLast? = some tag ∧
    List.Sublist (removeTag tags tag) tags ∧
    (removeTag tags tag).count t = if t = tag then 0 else tags.count t := by
  refine ⟨rfl, by simp [addTag], by simp [addTag], by simp [addTag], ?_, ?_⟩
  · exact List.filter_sublist tags
  · by_cases hx : t = tag
    · subst hx
      rw [if_pos rfl, List.count_eq_zero]
      intro hm
      rcases List.mem_filter.mp hm with ⟨-, hp⟩
      simp at hp
    · rw [if_neg hx]
      apply List.count_filter
      simp [hx]

/-- C8: the delete confirmation is a two-choice prompt; accepting it issues
exactly one store delete with the id followed by goBack; cancelling it
issues no store call and no navigation. -/
theorem deleteResolve_spec (oid : String) (s : ScreenState) :
    deletePrompt.buttons.length = 2 ∧
    deleteResolve DeleteChoice.confirm oid s = (s, [Effect.storeDelete oid, Effect.goBack]) ∧
    ((deleteResolve DeleteChoice.confirm oid s).2).countP isDelete = 1 ∧
    ((deleteResolve DeleteChoice.confirm oid s).2).getLast? = some Effect.goBack ∧
    deleteResolve DeleteChoice.cancel oid s = (s, []) ∧
    Effect.goBack ∉ (deleteResolve DeleteChoice.cancel oid s).2 ∧
    ((deleteResolve DeleteChoice.cancel oid s).2).countP isStoreCall = 0 := by
  refine ⟨rfl, rfl, rfl, rfl, rfl, ?_, rfl⟩
  simp [deleteResolve]

end AiCloset
